import Mathlib

/-!
Shallow embedding of the interaction core of the `my-ssh` demo application:
the terminal tab's command-execution state machine (`src/shell.rs`) and the
application-level message dispatch, tab routing, split-pane layout and
menu-bar construction (`src/main.rs`).

Rust strings are modelled as lists of Unicode characters; raw process output
is modelled as lists of bytes; the operating system is modelled as an oracle
from spawn requests to optional process outputs, where `none` means the
process could not be spawned at all (`Command::output()` returning `Err`,
which `expect` turns into a panic).  Update functions that can panic return
`Option`, with `none` standing for the panic.
-/

/-- Rust `String` values are modelled as lists of Unicode characters. -/
abbrev RustString := List Char

/-- Result of `std::process::Command::output()` for a successfully spawned
child: the exit-status success flag plus the raw captured byte streams. -/
structure ProcessOutput where
  status_success : Bool
  stdout : List Nat
  stderr : List Nat
deriving DecidableEq, Repr

/-- The spawn request issued to the operating system: `Command::new(program)`
together with the argument vector accumulated by `.arg`/`.args` calls
(`shell.rs` makes none, so the executor always sends an empty vector). -/
structure SpawnRequest where
  program : RustString
  args : List RustString
deriving DecidableEq, Repr

/-- the U+FFFD replacement character inserted by lossy UTF-8 decoding. -/
def replacementChar : Char := Char.ofNat 0xFFFD

/-- a byte is a UTF-8 continuation byte (`0x80 ..= 0xBF`). -/
def isCont (b : Nat) : Bool := 0x80 ≤ b && b ≤ 0xBF

/-- lower bound for the second byte of a multi-byte UTF-8 sequence headed
by `b` (special-cased for `0xE0` and `0xF0`, as in Rust's validator). -/
def utf8SndLo (b : Nat) : Nat :=
  if b = 0xE0 then 0xA0 else if b = 0xF0 then 0x90 else 0x80

/-- upper bound for the second byte of a multi-byte UTF-8 sequence headed
by `b` (special-cased for `0xED` and `0xF4`, as in Rust's validator). -/
def utf8SndHi (b : Nat) : Nat :=
  if b = 0xED then 0x9F else if b = 0xF4 then 0x8F else 0xBF

/-- the second byte `b1` is admissible after the leading byte `b`. -/
def validSnd (b b1 : Nat) : Bool := utf8SndLo b ≤ b1 && b1 ≤ utf8SndHi b

/-- Model of Rust's `String::from_utf8_lossy`: well-formed UTF-8 sequences
are decoded to their scalar values; each maximal valid prefix of an
ill-formed sequence is replaced by a single U+FFFD replacement character
(the "substitution of maximal subparts" policy used by the Rust standard
library). -/
def fromUtf8Lossy : List Nat → List Char
  | [] => []
  | b :: rest =>
    if b ≤ 0x7F then
      Char.ofNat b :: fromUtf8Lossy rest
    else if 0xC2 ≤ b && b ≤ 0xDF then
      match rest with
      | b1 :: rest1 =>
        if isCont b1 then
          Char.ofNat ((b - 0xC0) * 64 + (b1 - 0x80)) :: fromUtf8Lossy rest1
        else
          replacementChar :: fromUtf8Lossy (b1 :: rest1)
      | [] => [replacementChar]
    else if 0xE0 ≤ b && b ≤ 0xEF then
      match rest with
      | b1 :: rest1 =>
        if validSnd b b1 then
          match rest1 with
          | b2 :: rest2 =>
            if isCont b2 then
              Char.ofNat ((b - 0xE0) * 4096 + (b1 - 0x80) * 64 + (b2 - 0x80)) ::
                fromUtf8Lossy rest2
            else
              replacementChar :: fromUtf8Lossy (b2 :: rest2)
          | [] => [replacementChar]
        else
          replacementChar :: fromUtf8Lossy (b1 :: rest1)
      | [] => [replacementChar]
    else if 0xF0 ≤ b && b ≤ 0xF4 then
      match rest with
      | b1 :: rest1 =>
        if validSnd b b1 then
          match rest1 with
          | b2 :: rest2 =>
            if isCont b2 then
              match rest2 with
              | b3 :: rest3 =>
                if isCont b3 then
                  Char.ofNat ((b - 0xF0) * 262144 + (b1 - 0x80) * 4096 +
                      (b2 - 0x80) * 64 + (b3 - 0x80)) :: fromUtf8Lossy rest3
                else
                  replacementChar :: fromUtf8Lossy (b3 :: rest3)
              | [] => [replacementChar]
            else
              replacementChar :: fromUtf8Lossy (b2 :: rest2)
          | [] => [replacementChar]
        else
          replacementChar :: fromUtf8Lossy (b1 :: rest1)
      | [] => [replacementChar]
    else
      replacementChar :: fromUtf8Lossy rest
termination_by bs => bs.length
decreasing_by all_goals simp [List.length_cons] <;> omega

/-- Model of Rust's `String::truncate (new_len)` on a string viewed as its
character list: a no-op when `newLen` is at least the byte length, a cut at
the character boundary when `newLen` lands on one, and a panic (`none`)
when `newLen` falls strictly inside a character's UTF-8 encoding. -/
def rustTruncate : List Char → Nat → Option (List Char)
  | _, 0 => some []
  | [], _ + 1 => some []
  | c :: cs, n + 1 =>
    if c.utf8Size ≤ n + 1 then
      (rustTruncate cs (n + 1 - c.utf8Size)).map (fun t => c :: t)
    else
      none

/-- UTF-8 byte length of a string viewed as its character list. -/
def utf8ByteLength (s : RustString) : Nat := (s.map Char.utf8Size).sum

/-- State of the terminal tab (`ShellViewTab` in `src/shell.rs`): the
transcript shown in the output area, the pending input line, and the unused
`submit_button_state` field. -/
structure ShellViewTab where
  output : RustString
  input : RustString
  submit_button_state : RustString
deriving DecidableEq, Repr

/-- Local messages of the terminal tab (`ShellMessage` in `src/shell.rs`). -/
inductive ShellMessage where
  | SubmitInput
  | InputChanged (value : RustString)
  | DataChanged (data : RustString)
deriving DecidableEq, Repr

/-- `ShellViewTab::new()`: all three fields start empty. -/
def ShellViewTab.new : ShellViewTab :=
  { output := [], input := [], submit_button_state := [] }

/-- `ShellViewTab::update` from `src/shell.rs`.  The operating system is the
oracle `os`; `none` models the `expect ("Failed to execute command")` panic
on spawn failure and the `String::truncate` panic off a character boundary.
`SubmitInput` spawns `Command::new (&self.input)` with no arguments, waits
for the output, appends the lossily decoded stdout (on exit success) or
stderr (otherwise) to the transcript behind the `"$ "` marker and a trailing
newline, then clears the input.  `InputChanged` stores the value verbatim;
`DataChanged` truncates it to 100 bytes first. -/
def ShellViewTab.update (os : SpawnRequest → Option ProcessOutput)
    (tab : ShellViewTab) (message : ShellMessage) : Option ShellViewTab :=
  match message with
  | .SubmitInput =>
    match os { program := tab.input, args := [] } with
    | none => none
    | some out =>
      if out.status_success then
        let stdout := fromUtf8Lossy out.stdout
        some { tab with
          output := tab.output ++ ("$ ".toList ++ stdout ++ "\n".toList),
          input := [] }
      else
        let stderr := fromUtf8Lossy out.stderr
        some { tab with
          output := tab.output ++ ("$ ".toList ++ stderr ++ "\n".toList),
          input := [] }
  | .InputChanged value => some { tab with input := value }
  | .DataChanged data =>
    match rustTruncate data 100 with
    | none => none
    | some data1 => some { tab with input := data1 }

/-- The two menu-bar sizing policies (`SizeOption` in `src/main.rs`). -/
inductive SizeOption where
  | Uniform
  | Static
deriving DecidableEq, Repr

/-- `Display for SizeOption`: the text shown in the pick list and written
into the window title on a toggle. -/
def SizeOption.display : SizeOption → RustString
  | .Uniform => "Uniform".toList
  | .Static => "Static".toList

/-- Identifiers of the registered content tabs (`TabId` in `src/main.rs`). -/
inductive TabId where
  | Login
  | Ferris
  | Counter
  | Settings
  | Shell
deriving DecidableEq, Repr

/-- `iced_aw`'s per-item width policy as configured by `App::view`. -/
inductive ItemWidth where
  | Uniform (w : Nat)
  | Static (w : Nat)
deriving DecidableEq, Repr

/-- `iced_aw`'s per-item height policy as configured by `App::view`. -/
inductive ItemHeight where
  | Uniform (h : Nat)
  | Static (h : Nat)
deriving DecidableEq, Repr

/-- `iced_aw`'s close-condition bundle: the three independent collapse
triggers configured on the menu bar in `App::view`. -/
structure CloseCondition where
  leave : Bool
  click_outside : Bool
  click_inside : Bool
deriving DecidableEq, Repr

/-- Structural description of one widget appearing as a menu item in
`src/main.rs` (colors are kept abstract in the type `Col`, since the only
color operations the core performs are out-of-scope float bookkeeping). -/
inductive MenuItem (Col : Type) where
  | labelButton (label : RustString)
  | togglerItem (label : RustString) (value : Bool)
  | checkboxItem (label : RustString) (value : Bool)
  | sliderRow (label : RustString) (value : Nat)
  | textInputItem (value : RustString)
  | colorButton (color : Col)
  | sliderItem (value : Nat)
  | verticalSliders (r g b : Nat)
  | separatorItem
  | dotSeparatorItem
  | labeledSeparatorItem (label : RustString)
deriving DecidableEq, Repr

/-- a menu tree: one item plus optional width/height overrides set through
the `MenuTree` builder calls, plus the ordered children. -/
inductive MenuTree (Col : Type) where
  | node (item : MenuItem Col) (width height : Option Nat)
      (children : List (MenuTree Col))

/-- the root list of a `menu_bar!` invocation together with the item
geometry and close-condition configuration applied to it. -/
structure MenuBarModel (Col : Type) where
  roots : List (MenuTree Col)
  item_width : ItemWidth
  item_height : ItemHeight
  bounds_expand : Nat
  close_condition : CloseCondition

/-- Top-level application events (`Message` in `src/main.rs`).  Colors and
the local message types of the four out-of-scope demo tabs are type
parameters. -/
inductive Message (Col Lm Fm Cm Sm : Type) where
  | Debug (s : RustString)
  | ValueChange (v : Nat)
  | CheckChange (c : Bool)
  | ToggleChange (t : Bool)
  | ColorChange (c : Col)
  | FlipHorizontal
  | FlipVertical
  | ThemeChange (b : Bool)
  | TextChange (s : RustString)
  | SizeOption (so : SizeOption)
  | OnVerResize (position : Nat)
  | OnHorResize (position : Nat)
  | TabSelected (selected : TabId)
  | Login (m : Lm)
  | Ferris (m : Fm)
  | Counter (m : Cm)
  | Settings (m : Sm)
  | Shell (m : ShellMessage)

/-- The root application state (`struct App` in `src/main.rs`).  The theme
value and the private states of the four out-of-scope demo tabs are type
parameters; the terminal tab's state is the concrete `ShellViewTab`. -/
structure App (Th Ls Fs Cs Ss : Type) where
  title : RustString
  value : Nat
  check : Bool
  toggle : Bool
  theme : Th
  flip_h : Bool
  flip_v : Bool
  dark_mode : Bool
  text : RustString
  size_option : SizeOption
  ver_divider_position : Option Nat
  hor_divider_position : Option Nat
  active_tab : TabId
  login_tab : Ls
  ferris_tab : Fs
  counter_tab : Cs
  settings_tab : Ss
  shell_tab : ShellViewTab

/-- Modelled from the spec: the collaborators that `App::update` and
`App::view` call into but whose code is outside the specified core — the
operating system's process spawner (§6 "Process boundary"), the
theme/color-palette bookkeeping (§1 declares it out of scope beyond the
single accent value), and the `update` operations of the Login, Ferris,
Counter and Settings sub-tabs (§6 "Sub-tab collaborators", consumed only
through their update contract).  Each is supplied as an abstract operation;
the four color constants stand for the literal accent colors offered in the
"Controls" menu. -/
structure AppEnv (Th Col Ls Fs Cs Ss Lm Fm Cm Sm : Type) where
  os : SpawnRequest → Option ProcessOutput
  customPrimary : Col → Th → Th
  displayColor : Col → RustString
  setDarkMode : Bool → Th → Th
  paletteRgb8 : Th → Nat × Nat × Nat
  loginUpdate : Ls → Lm → Ls
  ferrisUpdate : Fs → Fm → Fs
  counterUpdate : Cs → Cm → Cs
  settingsUpdate : Ss → Sm → Ss
  colorConst1 : Col
  colorConst2 : Col
  colorConst3 : Col
  colorConst4 : Col

/-- `App::update` from `src/main.rs`: each message mutates exactly the
fields its arm writes; tab-local messages are forwarded to the owning tab's
update regardless of which tab is active; `TabSelected` only replaces the
active-tab identifier.  The result is `none` exactly when the forwarded
shell update panics. -/
def App.update {Th Col Ls Fs Cs Ss Lm Fm Cm Sm : Type}
    (env : AppEnv Th Col Ls Fs Cs Ss Lm Fm Cm Sm) (app : App Th Ls Fs Cs Ss) :
    Message Col Lm Fm Cm Sm → Option (App Th Ls Fs Cs Ss)
  | .Debug s => some { app with title := s }
  | .ValueChange v => some { app with value := v, title := (Nat.repr v).toList }
  | .CheckChange c => some { app with check := c, title := (toString c).toList }
  | .ToggleChange t => some { app with toggle := t, title := (toString t).toList }
  | .ColorChange c =>
      some { app with theme := env.customPrimary c app.theme,
                      title := env.displayColor c }
  | .FlipHorizontal => some { app with flip_h := !app.flip_h }
  | .FlipVertical => some { app with flip_v := !app.flip_v }
  | .ThemeChange b =>
      some { app with dark_mode := b, theme := env.setDarkMode b app.theme }
  | .TextChange s => some { app with text := s, title := s }
  | .SizeOption so => some { app with size_option := so, title := so.display }
  | .OnVerResize position => some { app with ver_divider_position := some position }
  | .OnHorResize position => some { app with hor_divider_position := some position }
  | .TabSelected selected => some { app with active_tab := selected }
  | .Login m => some { app with login_tab := env.loginUpdate app.login_tab m }
  | .Ferris m => some { app with ferris_tab := env.ferrisUpdate app.ferris_tab m }
  | .Counter m => some { app with counter_tab := env.counterUpdate app.counter_tab m }
  | .Settings m => some { app with settings_tab := env.settingsUpdate app.settings_tab m }
  | .Shell m =>
      (ShellViewTab.update env.os app.shell_tab m).map
        (fun st => { app with shell_tab := st })

/-- `debug_item` from `src/main.rs`: a leaf button carrying its label. -/
def debug_item {Col : Type} (label : RustString) : MenuTree Col :=
  .node (.labelButton label) none none []

/-- `separator()` from `src/main.rs`: a plain quad separator leaf. -/
def separator {Col : Type} : MenuTree Col :=
  .node .separatorItem none none []

/-- `dot_separator()` from `src/main.rs`: the dotted-text separator leaf. -/
def dot_separator {Col : Type} : MenuTree Col :=
  .node .dotSeparatorItem none none []

/-- `labeled_separator (label)` from `src/main.rs`. -/
def labeled_separator {Col : Type} (label : RustString) : MenuTree Col :=
  .node (.labeledSeparatorItem label) none none []

/-- `menu_1` from `src/main.rs`: the "Nested Menus" root (width 110) with
two "Item" leaves. -/
def menu_1 {Col : Type} : MenuTree Col :=
  .node (.labelButton "Nested Menus".toList) (some 110) none
    [debug_item "Item".toList, debug_item "Item".toList]

/-- `menu_2` from `src/main.rs`: the "Widgets" root, whose children embed
live widgets over the application state (checkbox, slider, text input,
toggler submenu) between labelled items and separators. -/
def menu_2 {Th Col Ls Fs Cs Ss : Type} (app : App Th Ls Fs Cs Ss) : MenuTree Col :=
  .node (.labelButton "Widgets".toList) none none
    [ debug_item "You can use any widget".toList,
      debug_item "as a menu item".toList,
      .node (.labelButton "Button".toList) none none [],
      .node (.checkboxItem "Checkbox".toList app.check) none none [],
      .node (.sliderRow "Slider".toList app.value) none none [],
      .node (.textInputItem app.text) none none [],
      .node (.togglerItem "Or as a sub menu item".toList app.toggle) none none
        [ debug_item "Item".toList, debug_item "Item".toList,
          debug_item "Item".toList, debug_item "Item".toList ],
      separator,
      debug_item "Seperators are also widgets".toList,
      labeled_separator "Separator".toList,
      debug_item "Item".toList,
      debug_item "Item".toList,
      dot_separator,
      debug_item "Item".toList,
      debug_item "Item".toList ]

/-- `menu_3` from `src/main.rs`: the "Controls" root with the flip buttons,
the dark-mode toggler, four accent-color buttons and the "Primary" submenu
of three channel sliders over the current palette. -/
def menu_3 {Th Col Ls Fs Cs Ss Lm Fm Cm Sm : Type}
    (env : AppEnv Th Col Ls Fs Cs Ss Lm Fm Cm Sm) (app : App Th Ls Fs Cs Ss) :
    MenuTree Col :=
  let rgb := env.paletteRgb8 app.theme
  .node (.labelButton "Controls".toList) none none
    [ .node (.labelButton "Flip Horizontal".toList) none none [],
      .node (.labelButton "Flip Vertical".toList) none none [],
      separator,
      .node (.togglerItem "Dark Mode".toList app.dark_mode) none none [],
      .node (.colorButton env.colorConst1) none none [],
      .node (.colorButton env.colorConst2) none none [],
      .node (.colorButton env.colorConst3) none none [],
      .node (.colorButton env.colorConst4) none none [],
      .node (.labelButton "Primary".toList) none none
        [ .node (.sliderItem rgb.1) none none [],
          .node (.sliderItem rgb.2.1) none none [],
          .node (.sliderItem rgb.2.2) none none [] ] ]

/-- `menu_4` from `src/main.rs`: the "Scroll" root with four leaves. -/
def menu_4 {Col : Type} : MenuTree Col :=
  .node (.labelButton "Scroll".toList) none none
    [ debug_item "ajrs".toList, debug_item "bsdfho".toList,
      debug_item "clkjhbf".toList, debug_item "dekjdaud".toList ]

/-- `menu_5` from `src/main.rs`: the "Static" root (width
`slider_width * slider_count + (slider_count - 1) * spacing`) with a
labelled separator and the row of three vertical channel sliders (height
100). -/
def menu_5 {Th Col Ls Fs Cs Ss Lm Fm Cm Sm : Type}
    (env : AppEnv Th Col Ls Fs Cs Ss Lm Fm Cm Sm) (app : App Th Ls Fs Cs Ss) :
    MenuTree Col :=
  let rgb := env.paletteRgb8 app.theme
  .node (.labelButton "Static".toList) (some (30 * 3 + (3 - 1) * 4)) none
    [ labeled_separator "Primary".toList,
      .node (.verticalSliders rgb.1 rgb.2.1 rgb.2.2) none (some 100) [] ]

/-- The menu bar built by `App::view` in `src/main.rs`: with the `Uniform`
sizing policy it holds the roots `menu_1 .. menu_4` with uniform item
geometry, with the `Static` policy it additionally holds `menu_5` and uses
static item geometry; both variants share spacing, bounds expansion and the
leave-only close condition. -/
def App.menuBar {Th Col Ls Fs Cs Ss Lm Fm Cm Sm : Type}
    (env : AppEnv Th Col Ls Fs Cs Ss Lm Fm Cm Sm) (app : App Th Ls Fs Cs Ss) :
    MenuBarModel Col :=
  match app.size_option with
  | .Uniform =>
    { roots := [menu_1, menu_2 app, menu_3 env app, menu_4],
      item_width := .Uniform 180, item_height := .Uniform 25,
      bounds_expand := 30,
      close_condition :=
        { leave := true, click_outside := false, click_inside := false } }
  | .Static =>
    { roots := [menu_1, menu_2 app, menu_3 env app, menu_4, menu_5 env app],
      item_width := .Static 180, item_height := .Static 25,
      bounds_expand := 30,
      close_condition :=
        { leave := true, click_outside := false, click_inside := false } }

/-- a trivial instantiation of the out-of-scope collaborator types, used to
run the model on concrete inputs. -/
def envU : AppEnv Unit Unit Unit Unit Unit Unit Unit Unit Unit Unit :=
  { os := fun _ => none,
    customPrimary := fun _ t => t,
    displayColor := fun _ => [],
    setDarkMode := fun _ t => t,
    paletteRgb8 := fun _ => (0, 0, 0),
    loginUpdate := fun s _ => s,
    ferrisUpdate := fun s _ => s,
    counterUpdate := fun s _ => s,
    settingsUpdate := fun s _ => s,
    colorConst1 := (), colorConst2 := (), colorConst3 := (), colorConst4 := () }

/-- the initial application state built by `App::new` in `src/main.rs`,
with the out-of-scope fields at their trivial instantiation. -/
def app0 : App Unit Unit Unit Unit Unit :=
  { title := "Menu Test".toList, value := 0, check := false, toggle := false,
    theme := (), flip_h := false, flip_v := false, dark_mode := false,
    text := "Text Input".toList, size_option := .Static,
    ver_divider_position := none, hor_divider_position := some 200,
    active_tab := .Login, login_tab := (), ferris_tab := (),
    counter_tab := (), settings_tab := (), shell_tab := ShellViewTab.new }

/-- on a string of single-byte characters, Rust's byte truncation agrees
with taking the first `n` characters. -/
theorem rustTruncate_of_ascii (s : List Char) (h : ∀ c ∈ s, c.utf8Size = 1) :
    ∀ n, rustTruncate s n = some (s.take n) := by
  induction s with
  | nil => intro n; cases n <;> simp [rustTruncate]
  | cons c cs ih =>
    intro n
    cases n with
    | zero => simp [rustTruncate]
    | succ m =>
      have hc : c.utf8Size = 1 := h c (by simp)
      have h1 : c.utf8Size ≤ m + 1 := by omega
      have ihm := ih (fun d hd => h d (by simp [hd])) m
      simp [rustTruncate, h1, hc, ihm]

/-- byte length of a cons cell. -/
theorem utf8ByteLength_cons (c : Char) (t : RustString) :
    utf8ByteLength (c :: t) = c.utf8Size + utf8ByteLength t := by
  simp [utf8ByteLength]

/-- whatever Rust's byte truncation returns fits in the requested number of
bytes. -/
theorem rustTruncate_byteLength_le (s : List Char) :
    ∀ n t, rustTruncate s n = some t → utf8ByteLength t ≤ n := by
  induction s with
  | nil =>
    intro n t h
    cases n <;> simp [rustTruncate] at h <;> subst h <;> simp [utf8ByteLength]
  | cons c cs ih =>
    intro n t h
    cases n with
    | zero => simp [rustTruncate] at h; subst h; simp [utf8ByteLength]
    | succ m =>
      by_cases h1 : c.utf8Size ≤ m + 1
      · simp [rustTruncate, h1] at h
        obtain ⟨t', ht', rfl⟩ := h
        have := ih (m + 1 - c.utf8Size) t' ht'
        rw [utf8ByteLength_cons]
        omega
      · simp [rustTruncate, h1] at h

/-- characterisation of `SubmitInput` on a successful spawn: the transcript
gains the marker, the lossily decoded stream matching the exit status, and a
newline; the input is cleared. -/
theorem ShellViewTab.submit_eq (os : SpawnRequest → Option ProcessOutput)
    (tab : ShellViewTab) (out : ProcessOutput)
    (h : os { program := tab.input, args := [] } = some out) :
    ShellViewTab.update os tab .SubmitInput
      = some { tab with
          output := tab.output ++ ("$ ".toList
            ++ fromUtf8Lossy (if out.status_success then out.stdout else out.stderr)
            ++ "\n".toList),
          input := [] } := by
  cases hs : out.status_success <;> simp [ShellViewTab.update, h, hs]

/-- Claim C1: when the operating system cannot spawn a process for the
submitted input line at all (executable not found, permission denied), the
terminal tab's update on `SubmitInput` does not produce a graceful outcome
record — the `expect` call makes the spawn failure unrecoverable for that
call (modelled as the update returning `none`). -/
theorem submitInput_spawn_failure_is_fatal
    (os : SpawnRequest → Option ProcessOutput) (tab : ShellViewTab)
    (h : os { program := tab.input, args := [] } = none) :
    ShellViewTab.update os tab .SubmitInput = none := by
  simp [ShellViewTab.update, h]

/-- Witness for C1: a concrete oracle that refuses every spawn makes the
update of the fresh terminal tab panic. -/
theorem submitInput_spawn_failure_is_fatal_witness :
    ShellViewTab.update (fun _ => none) ShellViewTab.new .SubmitInput = none :=
  submitInput_spawn_failure_is_fatal (fun _ => none) ShellViewTab.new rfl

set_option maxRecDepth 20000 in
/-- Counterexample to claim C2 as stated: `String::truncate (100)` cuts at
100 bytes, not 100 characters.  Delivering 150 copies of the two-byte
character 'é' through `DataChanged` stores 50 characters, not 100. -/
theorem dataChanged_150_chars_stored_as_50 :
    ShellViewTab.update (fun _ => none) ShellViewTab.new
        (.DataChanged (List.replicate 150 'é'))
      = some { ShellViewTab.new with input := List.replicate 50 'é' }
    ∧ ¬ (List.replicate 50 'é').length = 100 := by
  exact ⟨by decide, by decide⟩

/-- when Rust's byte truncation succeeds, it either left the string whole
(the requested length was at least the byte length) or returned the prefix
of whole characters occupying exactly the requested number of bytes. -/
theorem rustTruncate_eq_some (s : List Char) :
    ∀ n t, rustTruncate s n = some t →
      (utf8ByteLength s ≤ n ∧ t = s) ∨
      (∃ k, k ≤ s.length ∧ t = s.take k ∧ utf8ByteLength (s.take k) = n) := by
  induction s with
  | nil =>
    intro n t h
    cases n <;> simp [rustTruncate] at h <;> subst h <;>
      exact Or.inl ⟨by simp [utf8ByteLength], rfl⟩
  | cons c cs ih =>
    intro n t h
    cases n with
    | zero =>
      simp [rustTruncate] at h
      subst h
      exact Or.inr ⟨0, by simp, by simp, by simp [utf8ByteLength]⟩
    | succ m =>
      by_cases h1 : c.utf8Size ≤ m + 1
      · simp [rustTruncate, h1] at h
        obtain ⟨t', ht', rfl⟩ := h
        rcases ih (m + 1 - c.utf8Size) t' ht' with ⟨hle, rfl⟩ | ⟨k, hk, rfl, hbl⟩
        · refine Or.inl ⟨?_, rfl⟩
          rw [utf8ByteLength_cons]
          omega
        · refine Or.inr ⟨k + 1, by simp [hk], by rw [List.take_succ_cons], ?_⟩
          rw [List.take_succ_cons, utf8ByteLength_cons, hbl]
          omega
      · simp [rustTruncate, h1] at h

/-- Claim C2 (amended): `DataChanged` truncates the pending input to at
most 100 UTF-8 bytes, not characters.  For a string of 150 single-byte
characters the stored value is exactly the first 100 characters typed; in
general any value the update stores occupies at most 100 bytes; and when
byte offset 100 falls inside a multi-byte character — the string occupies
more than 100 bytes and no prefix of whole characters occupies exactly
100 — the update panics. -/
theorem dataChanged_truncates_to_100_bytes :
    (∀ (os : SpawnRequest → Option ProcessOutput) (tab : ShellViewTab)
        (s : RustString), (∀ c ∈ s, c.utf8Size = 1) → s.length = 150 →
        ShellViewTab.update os tab (.DataChanged s)
          = some { tab with input := s.take 100 }
        ∧ (s.take 100).length = 100)
    ∧ (∀ (os : SpawnRequest → Option ProcessOutput) (tab t' : ShellViewTab)
        (s : RustString),
        ShellViewTab.update os tab (.DataChanged s) = some t' →
        utf8ByteLength t'.input ≤ 100)
    ∧ (∀ (os : SpawnRequest → Option ProcessOutput) (tab : ShellViewTab)
        (s : RustString), 100 < utf8ByteLength s →
        (∀ k ≤ s.length, utf8ByteLength (s.take k) ≠ 100) →
        ShellViewTab.update os tab (.DataChanged s) = none) := by
  refine ⟨?_, ?_, ?_⟩
  · intro os tab s h1 h2
    refine ⟨by simp [ShellViewTab.update, rustTruncate_of_ascii s h1 100], ?_⟩
    simp [List.length_take, h2]
  · intro os tab t' s h
    cases hr : rustTruncate s 100 with
    | none => simp [ShellViewTab.update, hr] at h
    | some d =>
      simp [ShellViewTab.update, hr] at h
      subst h
      simpa using rustTruncate_byteLength_le s 100 d hr
  · intro os tab s h1 h2
    cases hr : rustTruncate s 100 with
    | none => simp [ShellViewTab.update, hr]
    | some d =>
      rcases rustTruncate_eq_some s 100 d hr with ⟨hle, _⟩ | ⟨k, hk, _, hbl⟩
      · omega
      · exact absurd hbl (h2 k hk)

set_option maxRecDepth 20000 in
/-- Witness for the amended C2: 150 ASCII characters store exactly the
first 100, and the 101-byte string `'a'` followed by 50 copies of the
two-byte `'é'` — where byte offset 100 falls inside the last character —
makes the update panic. -/
theorem dataChanged_truncates_to_100_bytes_witness :
    (ShellViewTab.update (fun _ => none) ShellViewTab.new
        (.DataChanged (List.replicate 150 'a'))
      = some { ShellViewTab.new with input := (List.replicate 150 'a').take 100 }
    ∧ ((List.replicate 150 'a').take 100).length = 100)
    ∧ ShellViewTab.update (fun _ => none) ShellViewTab.new
        (.DataChanged ('a' :: List.replicate 50 'é')) = none :=
  ⟨dataChanged_truncates_to_100_bytes.1 (fun _ => none) ShellViewTab.new
      (List.replicate 150 'a') (by decide) (by decide),
    dataChanged_truncates_to_100_bytes.2.2 (fun _ => none) ShellViewTab.new
      ('a' :: List.replicate 50 'é') (by decide) (by decide)⟩

/-- Claim C4: on a successful spawn the executor consumes the completed
process's result, and the captured text is the lossily UTF-8 decoded stdout
when the exit status is success, and the lossily decoded stderr otherwise. -/
theorem submitInput_captures_stream_by_status
    (os : SpawnRequest → Option ProcessOutput) (tab : ShellViewTab)
    (out : ProcessOutput)
    (h : os { program := tab.input, args := [] } = some out) :
    ShellViewTab.update os tab .SubmitInput
      = some { tab with
          output := tab.output ++ ("$ ".toList
            ++ fromUtf8Lossy (if out.status_success then out.stdout else out.stderr)
            ++ "\n".toList),
          input := [] } :=
  ShellViewTab.submit_eq os tab out h

/-- Witness for C4: a concrete oracle whose child fails with stderr bytes
`[0x68, 0x69]`. -/
theorem submitInput_captures_stream_by_status_witness :
    ShellViewTab.update
        (fun _ => some { status_success := false, stdout := [0x6F], stderr := [0x68, 0x69] })
        ShellViewTab.new .SubmitInput
      = some { ShellViewTab.new with
          output := ShellViewTab.new.output ++ ("$ ".toList
            ++ fromUtf8Lossy (if (false : Bool) then [0x6F] else [0x68, 0x69])
            ++ "\n".toList),
          input := [] } :=
  submitInput_captures_stream_by_status
    (fun _ => some { status_success := false, stdout := [0x6F], stderr := [0x68, 0x69] })
    ShellViewTab.new { status_success := false, stdout := [0x6F], stderr := [0x68, 0x69] } rfl

/-- Claim C5: every successful execution clears the pending input and
appends (never replaces) the outcome behind the fixed `"$ "` marker; a
command exiting successfully with empty output grows the transcript by
exactly the one line `"$ \n"`. -/
theorem submitInput_appends_marked_line :
    (∀ (os : SpawnRequest → Option ProcessOutput) (tab : ShellViewTab)
        (out : ProcessOutput),
        os { program := tab.input, args := [] } = some out →
        ∃ line, ShellViewTab.update os tab .SubmitInput
          = some { tab with
              output := tab.output ++ ("$ ".toList ++ line ++ "\n".toList),
              input := [] })
    ∧ (∀ (os : SpawnRequest → Option ProcessOutput) (tab : ShellViewTab)
        (out : ProcessOutput),
        os { program := tab.input, args := [] } = some out →
        out.status_success = true → out.stdout = [] →
        ShellViewTab.update os tab .SubmitInput
          = some { tab with
              output := tab.output ++ "$ \n".toList, input := [] }
        ∧ (tab.output ++ "$ \n".toList).count '\n'
            = tab.output.count '\n' + 1) := by
  constructor
  · intro os tab out h
    exact ⟨fromUtf8Lossy (if out.status_success then out.stdout else out.stderr),
      ShellViewTab.submit_eq os tab out h⟩
  · intro os tab out h hs hstd
    have hnil : fromUtf8Lossy [] = [] := by simp [fromUtf8Lossy]
    have he : "$ ".toList
          ++ fromUtf8Lossy (if out.status_success then out.stdout else out.stderr)
          ++ "\n".toList = "$ \n".toList := by
      rw [hs]
      simp only [if_true]
      rw [hstd, hnil]
      decide
    constructor
    · rw [ShellViewTab.submit_eq os tab out h, he]
    · have h1 : List.count '\n' "$ \n".toList = 1 := by decide
      rw [List.count_append, h1]

/-- Witness for C5: a command that exits successfully with empty output,
run from a tab with a one-line transcript, appends exactly the line
`"$ \n"` and clears the input. -/
theorem submitInput_appends_marked_line_witness :
    ShellViewTab.update
        (fun _ => some { status_success := true, stdout := [], stderr := [] })
        { output := "old\n".toList, input := "true".toList,
          submit_button_state := [] } .SubmitInput
      = some { output := "old\n".toList ++ "$ \n".toList, input := [],
               submit_button_state := [] }
    ∧ ("old\n".toList ++ "$ \n".toList).count '\n'
        = ("old\n".toList).count '\n' + 1 :=
  submitInput_appends_marked_line.2
    (fun _ => some { status_success := true, stdout := [], stderr := [] })
    { output := "old\n".toList, input := "true".toList,
      submit_button_state := [] }
    { status_success := true, stdout := [], stderr := [] } rfl rfl rfl

/-- Claim C8: the executor interprets the entire raw input line as the
executable and passes no arguments — the update consults the operating
system only at the spawn request whose program is the full pending-input
string and whose argument vector is empty, so any two oracles that agree on
that one request produce the same update result. -/
theorem submitInput_program_is_whole_input_no_args
    (os1 os2 : SpawnRequest → Option ProcessOutput) (tab : ShellViewTab)
    (h : os1 { program := tab.input, args := [] }
       = os2 { program := tab.input, args := [] }) :
    ShellViewTab.update os1 tab .SubmitInput
      = ShellViewTab.update os2 tab .SubmitInput := by
  unfold ShellViewTab.update
  rw [h]

/-- Witness for C8: an oracle that answers only argument-free requests and
an oracle that always answers agree on the submitted request, hence on the
update. -/
theorem submitInput_program_is_whole_input_no_args_witness :
    ShellViewTab.update
        (fun r => if r.args = [] then
            some { status_success := true, stdout := [], stderr := [] }
          else none)
        { output := [], input := "ls -l".toList, submit_button_state := [] }
        .SubmitInput
      = ShellViewTab.update
          (fun _ => some { status_success := true, stdout := [], stderr := [] })
          { output := [], input := "ls -l".toList, submit_button_state := [] }
          .SubmitInput :=
  submitInput_program_is_whole_input_no_args
    (fun r => if r.args = [] then
        some { status_success := true, stdout := [], stderr := [] }
      else none)
    (fun _ => some { status_success := true, stdout := [], stderr := [] })
    { output := [], input := "ls -l".toList, submit_button_state := [] }
    (by decide)

/-- Claim C9: the 100-byte cap applies only to `DataChanged`; the
`InputChanged` arm stores any string verbatim as the pending input, with no
truncation, whatever its length. -/
theorem inputChanged_stores_verbatim :
    ∀ (os : SpawnRequest → Option ProcessOutput) (tab : ShellViewTab)
      (s : RustString),
      ShellViewTab.update os tab (.InputChanged s)
        = some { tab with input := s } :=
  fun _ _ _ => rfl

/-- Claim C10: whenever the spawn succeeds, the pending input ends up
cleared regardless of the child's exit status — both the stdout branch and
the stderr branch clear it. -/
theorem submitInput_clears_input_on_any_exit
    (os : SpawnRequest → Option ProcessOutput) (tab : ShellViewTab)
    (out : ProcessOutput)
    (h : os { program := tab.input, args := [] } = some out) :
    ∃ t', ShellViewTab.update os tab .SubmitInput = some t' ∧ t'.input = [] :=
  ⟨{ tab with
      output := tab.output ++ ("$ ".toList
        ++ fromUtf8Lossy (if out.status_success then out.stdout else out.stderr)
        ++ "\n".toList),
      input := [] },
    ShellViewTab.submit_eq os tab out h, rfl⟩

/-- Witness for C10 at a non-success exit: the input is still cleared. -/
theorem submitInput_clears_input_on_any_exit_witness :
    ∃ t', ShellViewTab.update
        (fun _ => some { status_success := false, stdout := [], stderr := [0x65] })
        { output := [], input := "boom".toList, submit_button_state := [] }
        .SubmitInput = some t' ∧ t'.input = [] :=
  submitInput_clears_input_on_any_exit
    (fun _ => some { status_success := false, stdout := [], stderr := [0x65] })
    { output := [], input := "boom".toList, submit_button_state := [] }
    { status_success := false, stdout := [], stderr := [0x65] } rfl

/-- Counterexample to claim C3 as stated: toggling the sizing policy does
change the menu tree structure.  From the initial state set to `Uniform`,
selecting `Static` makes the menu bar render five root menus instead of
four (`menu_5` is built only in the `Static` arm of `App::view`). -/
theorem sizeOption_toggle_changes_root_count :
    App.update envU { app0 with size_option := SizeOption.Uniform }
        (Message.SizeOption SizeOption.Static)
      = some { app0 with size_option := SizeOption.Static,
                         title := "Static".toList }
    ∧ (App.menuBar envU { app0 with size_option := SizeOption.Uniform }).roots.length = 4
    ∧ (App.menuBar envU { app0 with size_option := SizeOption.Static }).roots.length = 5
    ∧ ¬ (App.menuBar envU { app0 with size_option := SizeOption.Uniform }).roots.length
        = (App.menuBar envU { app0 with size_option := SizeOption.Static }).roots.length :=
  ⟨rfl, rfl, rfl, by decide⟩

/-- Claim C3 (amended): toggling the sizing policy rewrites only the
`size_option` field and the window title — in particular it never alters
the active tab identifier or any tab's private state — but besides item
geometry it also changes the menu bar's root list: the first four root
menus are identical under both policies, while `Static` appends the fifth
"Static" menu. -/
theorem sizeOption_update_geometry_and_roots {Th Col Ls Fs Cs Ss Lm Fm Cm Sm : Type}
    (env : AppEnv Th Col Ls Fs Cs Ss Lm Fm Cm Sm) (app : App Th Ls Fs Cs Ss)
    (so : SizeOption) :
    App.update env app (.SizeOption so)
      = some { app with size_option := so, title := so.display }
    ∧ (∀ app', App.update env app (.SizeOption so) = some app' →
        app'.active_tab = app.active_tab ∧ app'.shell_tab = app.shell_tab)
    ∧ (∀ so1 so2 : SizeOption,
        (App.menuBar env { app with size_option := so1 }).roots.take 4
          = (App.menuBar env { app with size_option := so2 }).roots.take 4) := by
  refine ⟨rfl, ?_, ?_⟩
  · intro app' h
    cases h
    exact ⟨rfl, rfl⟩
  · intro so1 so2
    cases so1 <;> cases so2 <;> rfl

/-- the initial state after selecting the `Uniform` sizing policy. -/
def app0Uniform : App Unit Unit Unit Unit Unit :=
  { app0 with size_option := SizeOption.Uniform, title := "Uniform".toList }

/-- Witness for the amended C3 at the concrete initial state: the update
stores the new policy and the active tab is untouched. -/
theorem sizeOption_update_geometry_and_roots_witness :
    App.update envU app0 (Message.SizeOption SizeOption.Uniform)
      = some app0Uniform
    ∧ app0Uniform.active_tab = app0.active_tab :=
  ⟨(sizeOption_update_geometry_and_roots envU app0 SizeOption.Uniform).1,
    ((sizeOption_update_geometry_and_roots envU app0 SizeOption.Uniform).2.1 _
      (sizeOption_update_geometry_and_roots envU app0 SizeOption.Uniform).1).1⟩

/-- Claim C6: a tab-local message tagged for a non-active tab is applied to
that tab's private state anyway (the dispatch arms never consult
`active_tab`), the active tab identifier is untouched, and switching the
active tab rewrites only `active_tab`, discarding no tab's state. -/
theorem nonactive_dispatch_applies_and_select_keeps_state
    {Th Col Ls Fs Cs Ss Lm Fm Cm Sm : Type}
    (env : AppEnv Th Col Ls Fs Cs Ss Lm Fm Cm Sm) (app : App Th Ls Fs Cs Ss) :
    (∀ m : Lm, app.active_tab ≠ TabId.Login →
        App.update env app (.Login m)
          = some { app with login_tab := env.loginUpdate app.login_tab m })
    ∧ (∀ m : Fm, app.active_tab ≠ TabId.Ferris →
        App.update env app (.Ferris m)
          = some { app with ferris_tab := env.ferrisUpdate app.ferris_tab m })
    ∧ (∀ m : Cm, app.active_tab ≠ TabId.Counter →
        App.update env app (.Counter m)
          = some { app with counter_tab := env.counterUpdate app.counter_tab m })
    ∧ (∀ m : Sm, app.active_tab ≠ TabId.Settings →
        App.update env app (.Settings m)
          = some { app with settings_tab := env.settingsUpdate app.settings_tab m })
    ∧ (∀ m : ShellMessage, app.active_tab ≠ TabId.Shell →
        App.update env app (.Shell m)
          = (ShellViewTab.update env.os app.shell_tab m).map
              (fun st => { app with shell_tab := st }))
    ∧ (∀ t : TabId, App.update env app (.TabSelected t)
        = some { app with active_tab := t }) :=
  ⟨fun _ _ => rfl, fun _ _ => rfl, fun _ _ => rfl, fun _ _ => rfl,
    fun _ _ => rfl, fun _ => rfl⟩

/-- Witness for C6: in the initial state the Login tab is active, so the
Ferris tab is non-active; its message still mutates the Ferris state. -/
theorem nonactive_dispatch_applies_and_select_keeps_state_witness :
    App.update envU app0 (Message.Ferris ())
      = some { app0 with ferris_tab := envU.ferrisUpdate app0.ferris_tab () } :=
  (nonactive_dispatch_applies_and_select_keeps_state envU app0).2.1 ()
    (by decide)

/-- Claim C7: a drag on either axis stores exactly the raw offset with no
clamping by the coordinator and leaves the other axis's stored offset
unchanged; dragging the horizontal divider to `p` and then the vertical one
to `q` leaves the horizontal offset at `p` (instantiate `p := 300`,
`q := 40` for the spec's example). -/
theorem drag_stores_raw_offsets_independently
    {Th Col Ls Fs Cs Ss Lm Fm Cm Sm : Type}
    (env : AppEnv Th Col Ls Fs Cs Ss Lm Fm Cm Sm) (app : App Th Ls Fs Cs Ss)
    (p q : Nat) :
    App.update env app (.OnHorResize p)
      = some { app with hor_divider_position := some p }
    ∧ App.update env app (.OnVerResize q)
      = some { app with ver_divider_position := some q }
    ∧ (App.update env app (.OnHorResize p)).bind
        (fun a => App.update env a (.OnVerResize q))
      = some { app with hor_divider_position := some p,
                        ver_divider_position := some q } :=
  ⟨rfl, rfl, rfl⟩
